import Mathlib

/-!
Verification model of the OrangeHRM automation harness.

The definitions below are a shallow embedding of the element-interaction
layer (`pageobjects/base_page.py`), the configuration reader
(`utilities/readproperties.py`) and the random test-data generator
(`utilities/random_data.py`).  Effects of the browser driver (navigation,
element reads, script execution, screenshots) are modelled explicitly:
nondeterministic driver behaviour becomes an input parameter, raised
exceptions become explicit error values, and wall-clock polling loops
become recursion over the finite list of observations available before
the timeout elapses.
-/

set_option autoImplicit false

namespace OrangeHRM

/-- Model of the Python substring test `needle in hay`, on character lists:
`needle` occurs contiguously in `hay`. -/
def listContainsSub : List Char → List Char → Bool
  | _, [] => true
  | [], _ :: _ => false
  | h :: hs, n :: ns => List.isPrefixOf (n :: ns) (h :: hs) || listContainsSub hs (n :: ns)

/-- Model of the Python substring test `needle in hay` on strings. -/
def strContainsSub (hay needle : String) : Bool :=
  listContainsSub hay.toList needle.toList

/-- Model of Python `s.lstrip("/")`: drop every leading slash. -/
def lstripSlash (s : String) : String :=
  String.mk (s.toList.dropWhile (fun c => c == '/'))

/-- Model of Python `s.rstrip("/")`: drop every trailing slash. -/
def rstripSlash (s : String) : String :=
  String.mk ((s.toList.reverse.dropWhile (fun c => c == '/')).reverse)

/-- Model of Python `s.strip()`: drop leading and trailing whitespace. -/
def pyStrip (s : String) : String :=
  String.mk (((s.toList.dropWhile Char.isWhitespace).reverse.dropWhile
    Char.isWhitespace).reverse)

/-- Model of Python `s.startswith(p)`. -/
def strStartsWith (s p : String) : Bool :=
  List.isPrefixOf p.toList s.toList

/-- A Selenium locator: a (strategy, expression) pair. -/
abbrev Locator := String × String

/-- Model of the Python f-string rendering of a locator tuple (the exact
rendering is irrelevant to every claim; only its presence in messages is). -/
def reprLoc (l : Locator) : String :=
  "(" ++ l.1 ++ ", " ++ l.2 ++ ")"

/-- Errors raised by the element-interaction layer.  `invalidInput` models
Python `ValueError`, `webdriver` a propagated `WebDriverException`,
`assertionError` an `AssertionError` carrying its message, and
`configurationMissing` the `RuntimeError` raised when no base URL resolves. -/
inductive Err where
  | invalidInput (msg : String)
  | webdriver
  | assertionError (msg : String)
  | configurationMissing (msg : String)
  deriving DecidableEq

/-- Observable driver effects performed by `open_url`. -/
inductive Eff where
  | nav (url : String)
  | screenshot (fname : String)
  deriving DecidableEq

/-- Driver behaviour for one `open_url` call: whether `driver.get` raises a
`WebDriverException`, whether the `document.readyState` wait times out, and
whether the optional stabilizing locator becomes visible in time. -/
structure NavEnv where
  getFault : Bool
  readyTimeout : Bool
  locVisible : Bool
  deriving DecidableEq

/-- Screenshot filename scheme of `base_page.py`:
`screenshots/<tag>_<int(time.time())>.png`. -/
def ssName (tag : String) (ts : Nat) : String :=
  "screenshots/" ++ tag ++ "_" ++ toString ts ++ ".png"

/-- The scheme test of `base_page.py`:
`url.startswith(("http://", "https://"))`. -/
def hasScheme (url : String) : Bool :=
  strStartsWith url "http://" || strStartsWith url "https://"

namespace BasePage

/-- Embedding of `BasePage.open_url` (base_page.py lines 29-66).  Returns the
list of driver effects performed together with the raised error, if any.
`ts` models `int(time.time())` used to name screenshots. -/
def open_url (url : String) (waitLoc : Option Locator) (nv : NavEnv) (ts : Nat) :
    List Eff × Option Err :=
  if url = "" then
    ([], some (Err.invalidInput "url must be a non-empty string"))
  else if !hasScheme url then
    ([], some (Err.invalidInput "open_url expects a full url starting with http:// or https://"))
  else if nv.getFault then
    ([Eff.nav url, Eff.screenshot (ssName "open_url_error" ts)], some Err.webdriver)
  else
    let effs := Eff.nav url ::
      (if nv.readyTimeout then [Eff.screenshot (ssName "open_url_readystate_timeout" ts)] else [])
    match waitLoc with
    | none => (effs, none)
    | some loc =>
      if nv.locVisible then (effs, none)
      else
        let fname := ssName "open_url_wait_for_locator_timeout" ts
        (effs ++ [Eff.screenshot fname],
         some (Err.assertionError
           ("Timed out waiting for locator " ++ reprLoc loc ++ ". Screenshot: " ++ fname)))

/-- Base-URL resolution of `BasePage.open` (base_page.py lines 80-86):
`cfgResult = some v` models `ReadConfig.get_user_login_url()` returning `v`,
`cfgResult = none` models that call raising, in which case the code falls
back to `os.getenv("BASE_URL", "").strip()`. -/
def resolveBase (cfgResult : Option String) (envBaseUrl : Option String) : String :=
  match cfgResult with
  | some v => v
  | none => pyStrip (envBaseUrl.getD "")

/-- The slash-normalising join of `BasePage.open` (base_page.py line 92):
`base.rstrip("/") + "/" + path_or_url.lstrip("/")`. -/
def joinUrl (base pathOrUrl : String) : String :=
  rstripSlash base ++ "/" ++ lstripSlash pathOrUrl

/-- Embedding of `BasePage.open` (base_page.py lines 68-93). -/
def open_relative (pathOrUrl : String) (cfgResult : Option String)
    (envBaseUrl : Option String) (waitLoc : Option Locator) (nv : NavEnv) (ts : Nat) :
    List Eff × Option Err :=
  if hasScheme pathOrUrl then
    open_url pathOrUrl waitLoc nv ts
  else
    let base := resolveBase cfgResult envBaseUrl
    if base = "" then
      ([], some (Err.configurationMissing
        "Base URL not configured. Set ReadConfig.get_application_url() or env BASE_URL"))
    else
      open_url (joinUrl base pathOrUrl) waitLoc nv ts

/-- Number of navigations in an effect trace. -/
def navCount (effs : List Eff) : Nat :=
  effs.countP (fun e => match e with | Eff.nav _ => true | _ => false)

/-- Click actions attempted by `BasePage.click`: the native element click and
the script-level (`execute_script`) click. -/
inductive CAct where
  | native
  | js
  deriving DecidableEq

/-- Embedding of `BasePage.click` (base_page.py lines 114-120), after the
clickable wait has succeeded.  `nativeFault = true` models the native
`el.click()` raising a `WebDriverException`; `jsResult` is the outcome of the
fallback `execute_script("arguments[0].click();", el)` (`none` = success,
`some f` = the fault it raises).  Returns the trace of attempted click
actions and the error propagated to the caller, if any. -/
def click (nativeFault : Bool) (jsResult : Option Err) : List CAct × Option Err :=
  if nativeFault then
    ([CAct.native, CAct.js], jsResult)
  else
    ([CAct.native], none)

/-- Poll interval of `BasePage.get_element_list`, milliseconds
(`time.sleep(0.15)`). -/
def getElementListIntervalMs : Nat := 150

/-- Embedding of `BasePage.get_element_list` (base_page.py lines 103-111).
`obs` is the list of `driver.find_elements(*locator)` results observed at the
successive poll ticks before the deadline `time.time() + t` passes; the loop
returns the first non-empty result, or `[]` when every poll before the
timeout found nothing matching. -/
def get_element_list {α : Type} : List (List α) → List α
  | [] => []
  | es :: rest => if es.isEmpty then get_element_list rest else es

/-- Poll interval of the verification loop in `BasePage.type_and_verify`,
milliseconds (`time.sleep(0.12)`). -/
def tavIntervalMs : Nat := 120

/-- One attempted read of the element value inside `type_and_verify`:
either the read raised (`raised`), or it produced the `value` attribute
(`none` models Python `None`) together with the rendered `el.text`. -/
inductive ReadObs where
  | raised
  | got (valueAttr : Option String) (text : String)
  deriving DecidableEq

/-- The read expression of `type_and_verify` (base_page.py line 193):
`(el.get_attribute("value") or el.text or "").strip()`, with Python
truthiness: the `value` attribute is used when it is non-None and non-empty,
else the rendered text, else the empty string. -/
def pyValueOrText (valueAttr : Option String) (text : String) : String :=
  if valueAttr.getD "" ≠ "" then pyStrip (valueAttr.getD "") else pyStrip text

/-- The observed value a poll iteration stores into `last_val`: a raised read
stores `""` (the `except` branch), a successful read stores
`pyValueOrText`. -/
def observedOf : ReadObs → String
  | ReadObs.raised => ""
  | ReadObs.got va tx => pyValueOrText va tx

/-- The match test of `type_and_verify` (base_page.py line 196):
`last_val == text or (allow_partial and text in last_val)`. -/
def tavMatch (text observed : String) (allowPartial : Bool) : Bool :=
  observed == text || (allowPartial && strContainsSub observed text)

/-- The polling loop of `type_and_verify` (base_page.py lines 191-198).
`polls` lists the reads available at the successive poll ticks before the
deadline.  Returns `(some v, v)` when an iteration matched and returned `v`,
or `(none, lastVal)` when the loop exhausted with final `last_val`
`lastVal`. -/
def tavPoll (text : String) (allowPartial : Bool) (lastVal : String) :
    List ReadObs → Option String × String
  | [] => (none, lastVal)
  | o :: rest =>
    let lv := observedOf o
    if tavMatch text lv allowPartial then (some lv, lv)
    else tavPoll text allowPartial lv rest

/-- Embedding of the verification phase of `BasePage.type_and_verify`
(base_page.py lines 188-216), after the text has been typed.  `fb` is the
outcome of the script fallback block: `none` when `execute_script` or the
re-check read raised (the outer `except Exception: pass` then leaves
`last_val` unchanged), `some (va, tx)` when the re-check read succeeded with
value attribute `va` and rendered text `tx`.  Returns the string the function
returns, together with a flag recording whether the script fallback block
ran (it runs exactly when polling exhausted without a match, and is never
retried). -/
def type_and_verify (text : String) (allowPartial : Bool)
    (polls : List ReadObs) (fb : Option (Option String × String)) : String × Bool :=
  match tavPoll text allowPartial "" polls with
  | (some v, _) => (v, false)
  | (none, lastVal) =>
    match fb with
    | none => (lastVal, true)
    | some (va, tx) => (pyValueOrText va tx, true)

end BasePage

namespace ReadConfig

/-- Embedding of `ReadConfig._get_raw` (readproperties.py lines 41-47):
the config-file value when present, else the fallback.  `cfg` models the
loaded `configparser` as a partial map from (section, key). -/
def getRaw (cfg : String → String → Option String)
    (sectionName key : String) (fallback : Option String) : Option String :=
  match cfg sectionName key with
  | some v => some v
  | none => fallback

/-- Embedding of `ReadConfig.get` (readproperties.py lines 50-61): when an
environment-variable name is supplied and that variable is set, its value
wins; otherwise the file value (or fallback).  `env` models `os.getenv`. -/
def get (cfg : String → String → Option String) (env : String → Option String)
    (sectionName key : String) (fallback : Option String) (envVar : Option String) :
    Option String :=
  match envVar with
  | some v =>
    match env v with
    | some x => some x
    | none => getRaw cfg sectionName key fallback
  | none => getRaw cfg sectionName key fallback

/-- Embedding of `ReadConfig.get_user_login_url` (readproperties.py line 83). -/
def get_user_login_url (cfg : String → String → Option String)
    (env : String → Option String) : String :=
  (get cfg env "common info" "user_login_url" none (some "ADMIN_LOGIN_URL")).getD ""

/-- Embedding of `ReadConfig.get_user_email` (readproperties.py line 87). -/
def get_user_email (cfg : String → String → Option String)
    (env : String → Option String) : String :=
  (get cfg env "common info" "user_email" none (some "ADMIN_EMAIL")).getD ""

/-- Embedding of `ReadConfig.get_user_password` (readproperties.py line 92). -/
def get_user_password (cfg : String → String → Option String)
    (env : String → Option String) : String :=
  (get cfg env "common info" "user_password" none (some "ADMIN_PASSWORD")).getD ""

/-- Embedding of `ReadConfig.get_search_item_name` (readproperties.py
line 98): no environment-variable name is passed. -/
def get_search_item_name (cfg : String → String → Option String)
    (env : String → Option String) : String :=
  (get cfg env "common info" "search_item" none none).getD ""

/-- Embedding of `ReadConfig.get_emp_initial_name` (readproperties.py
line 103): the environment-variable name passed is `"ADMIN_PASSWORD"`. -/
def get_emp_initial_name (cfg : String → String → Option String)
    (env : String → Option String) : String :=
  (get cfg env "common info" "pim_emp_name" none (some "ADMIN_PASSWORD")).getD ""

/-- A concrete loaded config file used to evaluate the lookup functions:
`[common info]` holds `pim_emp_name = Alice` and `user_password = filepw`. -/
def cfgSample : String → String → Option String := fun s k =>
  if s == "common info" && k == "pim_emp_name" then some "Alice"
  else if s == "common info" && k == "user_password" then some "filepw"
  else none

/-- A concrete environment used to evaluate the lookup functions: only
`ADMIN_PASSWORD` is set, to `s3cret`. -/
def envSample : String → Option String := fun v =>
  if v == "ADMIN_PASSWORD" then some "s3cret" else none

end ReadConfig

namespace RandomData

/-- `string.digits`. -/
def digitChars : List Char := "0123456789".toList

/-- The literal `'123456789'` of `employee_id`. -/
def nonzeroDigitChars : List Char := "123456789".toList

/-- `string.ascii_uppercase`. -/
def upperChars : List Char := "ABCDEFGHIJKLMNOPQRSTUVWXYZ".toList

/-- `string.ascii_lowercase`. -/
def lowerChars : List Char := "abcdefghijklmnopqrstuvwxyz".toList

/-- The default `specials="!@#$%"` of `password`. -/
def specialChars : List Char := "!@#$%".toList

/-- Model of `rng.choice(s)` / `random.choice(s)`: the random source supplies
a natural number and the choice is the character at that index modulo the
pool size (for a non-empty pool this ranges over exactly the pool). -/
def pyChoiceChar (pool : List Char) (n : Nat) : Char :=
  pool.getD (n % pool.length) ' '

/-- Character list built by `employee_id` (random_data.py lines 17-23).
`rng` models the stream of draws from `secrets.SystemRandom`: with
`allowLeadingZero` each of the `length` positions draws from
`string.digits`; otherwise the first character draws from `'123456789'` and,
only when `length > 1`, the remaining `length - 1` positions draw from
`string.digits`. -/
def employee_id_chars (length : Nat) (allowLeadingZero : Bool) (rng : Nat → Nat) :
    List Char :=
  if allowLeadingZero then
    (List.range length).map (fun i => pyChoiceChar digitChars (rng i))
  else
    pyChoiceChar nonzeroDigitChars (rng 0) ::
      (if length > 1 then
        (List.range (length - 1)).map (fun i => pyChoiceChar digitChars (rng (i + 1)))
      else [])

/-- Embedding of `employee_id` (random_data.py lines 17-23). -/
def employee_id (length : Nat) (allowLeadingZero : Bool) (rng : Nat → Nat) : String :=
  String.mk (employee_id_chars length allowLeadingZero rng)

/-- Embedding of `username_from_name` (random_data.py lines 25-28):
lower-case the concatenated names, keep alphabetic characters only, truncate
to `length` and right-pad with `x` (`ljust`). -/
def username_from_name (first : String) (middle : Option String) (last : String)
    (length : Nat) : String :=
  let base := ((first ++ middle.getD "" ++ last).toList.map Char.toLower).filter
    (fun c => c.isAlpha)
  let cut := base.take length
  String.mk (cut ++ List.replicate (length - cut.length) 'x')

/-- Embedding of `password` (random_data.py lines 30-42).  The randomly
chosen characters are modelled by the draw stream `pick` feeding
`pyChoiceChar` on each pool, mirroring `random.choices`; `shuffle` models
`random.shuffle` as an arbitrary list permutation function supplied by the
random source.  `remaining = length - len(pool)` truncates at zero exactly
as `random.choices(k=negative)` yields no elements. -/
def password (length minUpper minLower minDigits minSpecial : Nat)
    (specials : List Char) (pick : Nat → Nat) (shuffle : List Char → List Char) :
    String :=
  let pool :=
    (List.range minUpper).map (fun i => pyChoiceChar upperChars (pick i))
    ++ (List.range minLower).map (fun i => pyChoiceChar lowerChars (pick (minUpper + i)))
    ++ (List.range minDigits).map
        (fun i => pyChoiceChar digitChars (pick (minUpper + minLower + i)))
    ++ (List.range minSpecial).map
        (fun i => pyChoiceChar specials (pick (minUpper + minLower + minDigits + i)))
  let remaining := length - pool.length
  let poolFull := pool ++ (List.range remaining).map
    (fun i => pyChoiceChar (upperChars ++ lowerChars ++ digitChars ++ specials)
      (pick (pool.length + i)))
  String.mk (shuffle poolFull)

/-- The employee record returned by `generate_employee_with_credentials`. -/
structure Employee where
  first_name : String
  middle_name : String
  last_name : String
  employee_id : String
  username : String
  password : String
  confirm_password : String
  deriving DecidableEq

/-- Embedding of `generate_employee_with_credentials` (random_data.py lines
44-52).  The Faker draws for the three names are the parameters `f`, `m`,
`l`; `rng`, `pick` and `shuffle` model the random sources of `employee_id`
and `password`. -/
def generate_employee_with_credentials (idLength unameLength passwordLength : Nat)
    (f m l : String) (rng : Nat → Nat) (pick : Nat → Nat)
    (shuffle : List Char → List Char) : Employee :=
  let eid := employee_id idLength false rng
  let uname := username_from_name f (some m) l unameLength
  let pwd := password passwordLength 1 1 1 1 specialChars pick shuffle
  { first_name := f, middle_name := m, last_name := l,
    employee_id := eid, username := uname,
    password := pwd, confirm_password := pwd }

end RandomData

/-! ## Helper lemmas -/

theorem head?_dropWhile_false {α : Type} (p : α → Bool) :
    ∀ (l : List α) (c : α), (l.dropWhile p).head? = some c → p c = false := by
  intro l
  induction l with
  | nil => intro c h; simp [List.dropWhile] at h
  | cons a t ih =>
    intro c h
    by_cases hp : p a
    · rw [List.dropWhile_cons_of_pos hp] at h
      exact ih c h
    · rw [List.dropWhile_cons_of_neg hp] at h
      simp only [List.head?_cons, Option.some_inj] at h
      subst h
      simpa using hp

theorem lstripSlash_head_ne_slash (s : String) :
    (lstripSlash s).toList.head? ≠ some '/' := by
  intro hcon
  have h1 : (s.toList.dropWhile (fun c => c == '/')).head? = some '/' := hcon
  have h2 := head?_dropWhile_false (fun c => c == '/') s.toList '/' h1
  simp at h2

theorem rstripSlash_getLast_ne_slash (s : String) :
    (rstripSlash s).toList.getLast? ≠ some '/' := by
  intro hcon
  have h1 : ((s.toList.reverse.dropWhile (fun c => c == '/')).reverse).getLast?
      = some '/' := hcon
  rw [List.getLast?_reverse] at h1
  have h2 := head?_dropWhile_false (fun c => c == '/') s.toList.reverse '/' h1
  simp at h2

theorem hasScheme_ne_empty {url : String} (h : hasScheme url = true) : url ≠ "" := by
  intro he
  subst he
  simp only [hasScheme, Bool.or_eq_true] at h
  rcases h with h | h <;> exact absurd h (by decide)

theorem tavPoll_eq_some_match (text : String) (ap : Bool) :
    ∀ (polls : List BasePage.ReadObs) (init v last : String),
      BasePage.tavPoll text ap init polls = (some v, last) →
      BasePage.tavMatch text v ap = true := by
  intro polls
  induction polls with
  | nil => intro init v last h; simp [BasePage.tavPoll] at h
  | cons o rest ih =>
    intro init v last h
    simp only [BasePage.tavPoll] at h
    by_cases hm : BasePage.tavMatch text (BasePage.observedOf o) ap
    · rw [if_pos hm] at h
      simp only [Prod.mk.injEq, Option.some_inj] at h
      rw [← h.1]
      exact hm
    · rw [if_neg hm] at h
      exact ih _ v last h

theorem tavPoll_eq_none_last (text : String) (ap : Bool) :
    ∀ (polls : List BasePage.ReadObs) (init last : String),
      BasePage.tavPoll text ap init polls = (none, last) →
      last = (polls.map BasePage.observedOf).getLastD init := by
  intro polls
  induction polls with
  | nil =>
    intro init last h
    simp only [BasePage.tavPoll, Prod.mk.injEq] at h
    simp [h.2]
  | cons o rest ih =>
    intro init last h
    simp only [BasePage.tavPoll] at h
    by_cases hm : BasePage.tavMatch text (BasePage.observedOf o) ap
    · rw [if_pos hm] at h
      simp at h
    · rw [if_neg hm] at h
      rw [List.map_cons, List.getLastD_cons]
      exact ih _ last h

/-! ## Claim theorems -/

/-- C3: when the clickable wait succeeds and the native click raises a driver
interaction fault (`WebDriverException`), `click` performs exactly one silent
script-level click fallback on the already-resolved element, does not
propagate the native fault, does not retry the fallback, and propagates the
fallback fault to the caller when the fallback itself fails; with no native
fault, no fallback runs. -/
theorem click_native_fault_single_js_fallback (jsResult : Option Err) :
    BasePage.click true jsResult = ([BasePage.CAct.native, BasePage.CAct.js], jsResult)
    ∧ (BasePage.click true jsResult).1.countP (fun a => a == BasePage.CAct.js) = 1
    ∧ (BasePage.click true jsResult).2 = jsResult
    ∧ BasePage.click false none = ([BasePage.CAct.native], none) := by
  refine ⟨rfl, ?_, rfl, rfl⟩
  exact (by decide :
    List.countP (fun a => a == BasePage.CAct.js)
      [BasePage.CAct.native, BasePage.CAct.js] = 1)

/-- C4: `get_element_list` polls `find_elements` at a fixed 150 ms interval
and returns the first non-empty result; when no element matches at any poll
tick before the timeout it returns the empty list rather than raising. -/
theorem get_element_list_empty_on_timeout (α : Type) (obs : List (List α)) :
    BasePage.get_element_list obs = (obs.find? (fun o => !o.isEmpty)).getD []
    ∧ ((∀ o ∈ obs, o = []) → BasePage.get_element_list obs = [])
    ∧ BasePage.getElementListIntervalMs = 150 := by
  have hfind : BasePage.get_element_list obs = (obs.find? (fun o => !o.isEmpty)).getD [] := by
    induction obs with
    | nil => simp [BasePage.get_element_list]
    | cons es rest ih =>
      by_cases h : es.isEmpty
      · simp [BasePage.get_element_list, h, List.find?_cons, ih]
      · simp [BasePage.get_element_list, h, List.find?_cons]
  refine ⟨hfind, ?_, rfl⟩
  intro hall
  rw [hfind]
  have : obs.find? (fun o => !o.isEmpty) = none := by
    rw [List.find?_eq_none]
    intro o ho
    simp [hall o ho]
  simp [this]

/-- C4 witness: two poll ticks, both finding nothing, yield the empty list. -/
theorem get_element_list_empty_on_timeout_witness :
    BasePage.get_element_list ([[], []] : List (List Nat)) = [] :=
  (get_element_list_empty_on_timeout Nat [[], []]).2.1 (by decide)

/-- C6: `open_url` on an empty URL, or on a URL that does not start with
`http://` or `https://`, performs no navigation (and no retry) and raises the
`ValueError`-class invalid-input error. -/
theorem open_url_invalid_input (url : String) (w : Option Locator) (nv : NavEnv) (ts : Nat)
    (h : url = "" ∨ hasScheme url = false) :
    (BasePage.open_url url w nv ts).1 = []
    ∧ ∃ msg, (BasePage.open_url url w nv ts).2 = some (Err.invalidInput msg) := by
  rcases h with h | h
  · subst h
    exact ⟨rfl, "url must be a non-empty string", rfl⟩
  · by_cases he : url = ""
    · subst he
      exact ⟨rfl, "url must be a non-empty string", rfl⟩
    · simp only [BasePage.open_url, if_neg he, h]
      exact ⟨rfl, "open_url expects a full url starting with http:// or https://", rfl⟩

/-- C6 witness: a URL with an unrecognized scheme navigates nowhere. -/
theorem open_url_invalid_input_witness :
    (BasePage.open_url "ftp://example.com" none ⟨false, false, false⟩ 0).1 = [] :=
  (open_url_invalid_input "ftp://example.com" none ⟨false, false, false⟩ 0
    (Or.inr (by decide))).1

/-- C7: for every valid absolute URL, `open_url` issues exactly one
navigation; with no stabilizing locator and a successful `driver.get`, a
ready-state timeout is recorded with a diagnostic screenshot and the call
still returns without error. -/
theorem open_url_one_nav_readystate_nonfatal (url : String) (w : Option Locator)
    (nv : NavEnv) (ts : Nat) (h : hasScheme url = true) :
    BasePage.navCount (BasePage.open_url url w nv ts).1 = 1
    ∧ (w = none → nv.getFault = false →
        (BasePage.open_url url w nv ts).2 = none
        ∧ (nv.readyTimeout = true →
            Eff.screenshot (ssName "open_url_readystate_timeout" ts)
              ∈ (BasePage.open_url url w nv ts).1)) := by
  have hne : ¬ url = "" := hasScheme_ne_empty h
  obtain ⟨gf, rt, lv⟩ := nv
  constructor
  · cases gf <;> cases rt <;> rcases w with _ | loc <;>
      simp [BasePage.open_url, hne, h, BasePage.navCount] <;>
      cases lv <;> simp [BasePage.navCount]
  · rintro rfl hgf
    simp only at hgf
    subst hgf
    cases rt <;> simp [BasePage.open_url, hne, h]

/-- C7 witness: a ready-state timeout on a valid URL with no stabilizing
locator still counts exactly one navigation. -/
theorem open_url_one_nav_readystate_nonfatal_witness :
    BasePage.navCount (BasePage.open_url "http://host" none ⟨false, true, false⟩ 0).1 = 1 :=
  (open_url_one_nav_readystate_nonfatal "http://host" none ⟨false, true, false⟩ 0
    (by decide)).1

/-- C8: when a stabilizing locator is supplied and never becomes visible
within the timeout, `open_url` captures a diagnostic screenshot and fails
with the navigation-timeout (`AssertionError`) error whose message embeds
the screenshot path. -/
theorem open_url_locator_timeout_screenshot (url : String) (loc : Locator)
    (nv : NavEnv) (ts : Nat) (h : hasScheme url = true)
    (hg : nv.getFault = false) (hv : nv.locVisible = false) :
    Eff.screenshot (ssName "open_url_wait_for_locator_timeout" ts)
      ∈ (BasePage.open_url url (some loc) nv ts).1
    ∧ (BasePage.open_url url (some loc) nv ts).2
        = some (Err.assertionError
            ("Timed out waiting for locator " ++ reprLoc loc ++ ". Screenshot: "
              ++ ssName "open_url_wait_for_locator_timeout" ts))
    ∧ ∃ p, ("Timed out waiting for locator " ++ reprLoc loc ++ ". Screenshot: "
              ++ ssName "open_url_wait_for_locator_timeout" ts)
          = p ++ ssName "open_url_wait_for_locator_timeout" ts := by
  have hne : ¬ url = "" := hasScheme_ne_empty h
  obtain ⟨gf, rt, lv⟩ := nv
  simp only at hg hv
  subst hg
  subst hv
  refine ⟨?_, ?_, "Timed out waiting for locator " ++ reprLoc loc ++ ". Screenshot: ", rfl⟩ <;>
    cases rt <;> simp [BasePage.open_url, hne, h]

/-- C8 witness: instantiated at a concrete URL, locator and timestamp. -/
theorem open_url_locator_timeout_screenshot_witness :
    Eff.screenshot (ssName "open_url_wait_for_locator_timeout" 7)
      ∈ (BasePage.open_url "http://host" (some ("id", "q")) ⟨false, false, false⟩ 7).1 :=
  (open_url_locator_timeout_screenshot "http://host" ("id", "q") ⟨false, false, false⟩ 7
    (by decide) rfl rfl).1

/-- C1: `type_and_verify` polls the element value (the `value` attribute with
Python-truthiness fallback to the rendered text) at 120 ms intervals until it
equals the target text or, with partial matching allowed, contains it as a
substring; a matching poll returns that observed value with no fallback; when
polling exhausts, the script fallback runs exactly once with one re-check and
the function returns the value observed by that re-check, or the last value
observed by the loop when the fallback raised — in every case a value is
returned and no mismatch error is raised. -/
theorem type_and_verify_poll_fallback_spec (text : String) (ap : Bool)
    (polls : List BasePage.ReadObs) (fb : Option (Option String × String)) :
    (∀ v last, BasePage.tavPoll text ap "" polls = (some v, last) →
        BasePage.type_and_verify text ap polls fb = (v, false)
        ∧ (v = text ∨ (ap = true ∧ strContainsSub v text = true)))
    ∧ (∀ last, BasePage.tavPoll text ap "" polls = (none, last) →
        (fb = none →
          BasePage.type_and_verify text ap polls fb
            = ((polls.map BasePage.observedOf).getLastD "", true))
        ∧ (∀ va tx, fb = some (va, tx) →
            BasePage.type_and_verify text ap polls fb
              = (BasePage.pyValueOrText va tx, true)))
    ∧ BasePage.tavIntervalMs = 120 := by
  refine ⟨?_, ?_, rfl⟩
  · intro v last h
    constructor
    · simp [BasePage.type_and_verify, h]
    · have hm := tavPoll_eq_some_match text ap polls "" v last h
      simp only [BasePage.tavMatch, Bool.or_eq_true, Bool.and_eq_true, beq_iff_eq] at hm
      rcases hm with hm | hm
      · exact Or.inl hm
      · exact Or.inr hm
  · intro last h
    constructor
    · intro hfb
      subst hfb
      have hl := tavPoll_eq_none_last text ap polls "" last h
      simp [BasePage.type_and_verify, h, hl]
    · intro va tx hfb
      subst hfb
      simp [BasePage.type_and_verify, h]

/-- C1 witness: the first poll already observes the typed text, which is
returned with no fallback. -/
theorem type_and_verify_poll_fallback_spec_witness :
    BasePage.type_and_verify "ab" false [BasePage.ReadObs.got (some "ab") "zz"] none
      = ("ab", false) :=
  ((type_and_verify_poll_fallback_spec "ab" false
    [BasePage.ReadObs.got (some "ab") "zz"] none).1 "ab" "ab" (by decide)).1

/-- C2: for a non-absolute path and a resolvable non-empty base URL, `open`
navigates to `base.rstrip("/") + "/" + path.lstrip("/")` — a join with
exactly one separating slash regardless of trailing slashes on the base or
leading slashes on the path — and fails with the configuration-missing error
when no base URL resolves. -/
theorem open_relative_join_spec (p : String) (cfg env : Option String)
    (w : Option Locator) (nv : NavEnv) (ts : Nat) (h : hasScheme p = false) :
    (BasePage.resolveBase cfg env ≠ "" →
      BasePage.open_relative p cfg env w nv ts
        = BasePage.open_url (BasePage.joinUrl (BasePage.resolveBase cfg env) p) w nv ts
      ∧ BasePage.joinUrl (BasePage.resolveBase cfg env) p
          = rstripSlash (BasePage.resolveBase cfg env) ++ "/" ++ lstripSlash p
      ∧ (rstripSlash (BasePage.resolveBase cfg env)).toList.getLast? ≠ some '/'
      ∧ (lstripSlash p).toList.head? ≠ some '/')
    ∧ (BasePage.resolveBase cfg env = "" →
        BasePage.open_relative p cfg env w nv ts
          = ([], some (Err.configurationMissing
              "Base URL not configured. Set ReadConfig.get_application_url() or env BASE_URL")))
    ∧ BasePage.joinUrl "http://host/" "/pim" = "http://host/pim"
    ∧ BasePage.joinUrl "http://host" "pim" = "http://host/pim"
    ∧ BasePage.open_relative "pim" (some "http://host") none none ⟨false, false, true⟩ 0
        = ([Eff.nav "http://host/pim"], none) := by
  refine ⟨?_, ?_, by decide, by decide, by decide⟩
  · intro hb
    refine ⟨?_, rfl, rstripSlash_getLast_ne_slash _, lstripSlash_head_ne_slash _⟩
    simp [BasePage.open_relative, h, hb]
  · intro hb
    simp [BasePage.open_relative, h, hb]

/-- C2 witness: base with a trailing slash joined to a path with a leading
slash navigates to the URL with a single separating slash. -/
theorem open_relative_join_spec_witness :
    BasePage.open_relative "/pim" (some "http://host/") none none ⟨false, false, true⟩ 0
      = BasePage.open_url "http://host/pim" none ⟨false, false, true⟩ 0 := by
  have h := ((open_relative_join_spec "/pim" (some "http://host/") none none
    ⟨false, false, true⟩ 0 (by decide)).1 (by decide)).1
  have hr : BasePage.resolveBase (some "http://host/") none = "http://host/" := rfl
  have hj : BasePage.joinUrl "http://host/" "/pim" = "http://host/pim" := by decide
  rw [h, hr, hj]

/-- C5: contrary to the claim that each recognized key consults its own
dedicated environment variable, `get_emp_initial_name` consults
`ADMIN_PASSWORD` — the user-password key's variable — so setting the
password override changes the employee-name lookup (the file value `Alice`
is shadowed by the password variable `s3cret`); `get_search_item_name`
consults no environment variable at all. -/
theorem emp_initial_name_consults_password_var :
    ReadConfig.get_emp_initial_name ReadConfig.cfgSample ReadConfig.envSample = "s3cret"
    ∧ ReadConfig.cfgSample "common info" "pim_emp_name" = some "Alice"
    ∧ ReadConfig.envSample "ADMIN_PASSWORD" = some "s3cret"
    ∧ ReadConfig.get_user_password ReadConfig.cfgSample ReadConfig.envSample = "s3cret"
    ∧ (∀ cfg env env2, ReadConfig.get_search_item_name cfg env
        = ReadConfig.get_search_item_name cfg env2) := by
  exact ⟨by decide, by decide, by decide, by decide, fun cfg env env2 => rfl⟩

/-- C9: the employee record generated by `generate_employee_with_credentials`
always has `confirm_password` equal to `password`, for every argument and
every random outcome. -/
theorem generate_employee_confirm_password_eq
    (idLength unameLength passwordLength : Nat) (f m l : String)
    (rng pick : Nat → Nat) (shuffle : List Char → List Char) :
    (RandomData.generate_employee_with_credentials idLength unameLength passwordLength
        f m l rng pick shuffle).confirm_password
      = (RandomData.generate_employee_with_credentials idLength unameLength passwordLength
        f m l rng pick shuffle).password := rfl

/-- Characters drawn via `pyChoiceChar` stay within the bounds satisfied by
every character of the pool. -/
theorem getD_mod_mem_bounds (l : List Char) (lo hi : Char)
    (hall : ∀ c ∈ l, lo ≤ c ∧ c ≤ hi) (hpos : 0 < l.length) (n : Nat) :
    lo ≤ l.getD (n % l.length) ' ' ∧ l.getD (n % l.length) ' ' ≤ hi := by
  have h : n % l.length < l.length := Nat.mod_lt _ hpos
  rw [List.getD_eq_getElem l ' ' h]
  exact hall _ (List.getElem_mem h)

/-- C10: `employee_id` with `allow_leading_zero=False` returns a digit string
of length `max length 1` whose first character is a nonzero digit — in
particular a single nonzero digit for `length ≤ 1`, including `length = 0`. -/
theorem employee_id_no_leading_zero_spec (len : Nat) (rng : Nat → Nat) :
    (RandomData.employee_id len false rng).length = max len 1
    ∧ ∃ c rest, RandomData.employee_id_chars len false rng = c :: rest
        ∧ RandomData.employee_id len false rng = String.mk (c :: rest)
        ∧ ('1' ≤ c ∧ c ≤ '9')
        ∧ (∀ d ∈ rest, '0' ≤ d ∧ d ≤ '9') := by
  have hchars : RandomData.employee_id_chars len false rng
      = RandomData.pyChoiceChar RandomData.nonzeroDigitChars (rng 0) ::
        (if len > 1 then (List.range (len - 1)).map
            (fun i => RandomData.pyChoiceChar RandomData.digitChars (rng (i + 1)))
          else []) := rfl
  constructor
  · have hlen : (RandomData.employee_id len false rng).length
        = (RandomData.employee_id_chars len false rng).length := rfl
    rw [hlen, hchars]
    by_cases h : len > 1 <;>
      simp [h, Nat.max_def] <;> split_ifs <;> omega
  · refine ⟨_, _, hchars, congrArg String.mk hchars, ?_, ?_⟩
    · exact getD_mod_mem_bounds RandomData.nonzeroDigitChars '1' '9'
        (by decide) (by decide) (rng 0)
    · intro d hd
      by_cases h : len > 1
      · rw [if_pos h] at hd
        obtain ⟨i, _, rfl⟩ := List.mem_map.mp hd
        exact getD_mod_mem_bounds RandomData.digitChars '0' '9'
          (by decide) (by decide) _
      · rw [if_neg h] at hd
        simp at hd

end OrangeHRM
